import Mathlib

/-!
Verification of the GOP portal-sync subsystem of the expedientes
repository (`gop_integration.py`), against its natural-language
specification.

The Python functions are shallowly embedded as total Lean functions:
strings are Lean `String`s (lists of unicode characters, as in the
source's `str`), dictionaries become association lists in insertion
order, SQL tables become lists of records, and calendar dates used only
for ordering/difference arithmetic in the history ledger are modelled as
day numbers (`Int`).  Fallible operations return `Option`.
-/

namespace GopSync

/-- Characters removed by Python's `str.strip()` (ASCII whitespace;
the inputs in scope are ASCII/Latin-1 grid text). -/
def isPySpace (c : Char) : Bool :=
  c == ' ' || c == '\t' || c == '\n' || c == '\x0d' || c == '\x0b' || c == '\x0c'

/-- `str.strip()` on a list of characters. -/
def stripChars (l : List Char) : List Char :=
  ((l.dropWhile isPySpace).reverse.dropWhile isPySpace).reverse

/-- `str.strip()`. -/
def pyStrip (s : String) : String :=
  ⟨stripChars s.data⟩

/-- Case-mapping table of Python's `str.lower()` restricted to the
ASCII and Latin-1 uppercase letters, the alphabet the portal's grid
text and the classifier's keyword sets live in. -/
def lowerTable : List (Char × Char) :=
  [('A','a'),('B','b'),('C','c'),('D','d'),('E','e'),('F','f'),('G','g'),
   ('H','h'),('I','i'),('J','j'),('K','k'),('L','l'),('M','m'),('N','n'),
   ('O','o'),('P','p'),('Q','q'),('R','r'),('S','s'),('T','t'),('U','u'),
   ('V','v'),('W','w'),('X','x'),('Y','y'),('Z','z'),
   ('À','à'),('Á','á'),('Â','â'),('Ã','ã'),('Ä','ä'),('Å','å'),('Æ','æ'),
   ('Ç','ç'),('È','è'),('É','é'),('Ê','ê'),('Ë','ë'),('Ì','ì'),('Í','í'),
   ('Î','î'),('Ï','ï'),('Ð','ð'),('Ñ','ñ'),('Ò','ò'),('Ó','ó'),('Ô','ô'),
   ('Õ','õ'),('Ö','ö'),('Ø','ø'),('Ù','ù'),('Ú','ú'),('Û','û'),('Ü','ü'),
   ('Ý','ý'),('Þ','þ')]

/-- `str.lower()` on one character. -/
def pyLowerChar (c : Char) : Char :=
  match lowerTable.find? (fun p => p.1 == c) with
  | some p => p.2
  | none => c

/-- `str.lower()`. -/
def pyLower (s : String) : String :=
  ⟨s.data.map pyLowerChar⟩

/-- Python's substring containment `needle in hay` on character lists. -/
def infixOf (needle hay : List Char) : Bool :=
  hay.tails.any (fun t => needle.isPrefixOf t)

/-- Python's substring containment `needle in hay` on strings. -/
def pyIn (needle hay : String) : Bool :=
  infixOf needle.data hay.data

/-- The three keyword sets of `_determinar_bandeja_por_usuario`,
in the order the source checks them. -/
def palabrasCpim : List String :=
  ["cpim", "aguinagalde", "gustavo", "de jesús", "santiago", "javier"]

def palabrasImlauer : List String :=
  ["imlauer", "fernando", "sergio"]

def palabrasOnetto : List String :=
  ["onetto"]

/-- `_determinar_bandeja_por_usuario(usuario_gop, fuente)`:
the queue classifier.  `"Todos los Trámites"` overrides everything;
an empty username goes to `'profesional'`; otherwise the lowercased,
stripped username is matched against the three keyword sets in order. -/
def determinarBandejaPorUsuario (usuario_gop : String) (fuente : String) : String :=
  if fuente == "Todos los Trámites" then
    "profesional"
  else if usuario_gop == "" then
    "profesional"
  else
    let usuario := pyStrip (pyLower usuario_gop)
    if palabrasCpim.any (fun palabra => pyIn palabra usuario) then
      "cpim"
    else if palabrasImlauer.any (fun palabra => pyIn palabra usuario) then
      "imlauer"
    else if palabrasOnetto.any (fun palabra => pyIn palabra usuario) then
      "onetto"
    else
      "profesional"

/-- Calendar date as produced by `datetime.date`. -/
structure Fecha where
  year : Nat
  month : Nat
  day : Nat
deriving DecidableEq, Repr

/-- Gregorian leap year, as in `calendar`/`datetime`. -/
def isLeap (y : Nat) : Bool :=
  (y % 4 == 0 && y % 100 != 0) || y % 400 == 0

/-- Days in a month, as validated by the `datetime.date` constructor. -/
def daysInMonth (y m : Nat) : Nat :=
  if m == 2 then (if isLeap y then 29 else 28)
  else if m == 4 || m == 6 || m == 9 || m == 11 then 30
  else 31

/-- The `datetime.date(y, m, d)` constructor's validity check
(`MINYEAR <= y <= MAXYEAR`, month and day in range). -/
def fechaValida (y m d : Nat) : Bool :=
  1 ≤ y && y ≤ 9999 && 1 ≤ m && m ≤ 12 && 1 ≤ d && d ≤ daysInMonth y m

def isDigitCh (c : Char) : Bool := '0' ≤ c && c ≤ '9'

def digitVal (c : Char) : Nat := c.toNat - 48

/-- The `%Y` directive of `_strptime`: exactly four digits. -/
def parse4Digits : List Char → Option (Nat × List Char)
  | c1 :: c2 :: c3 :: c4 :: rest =>
    if isDigitCh c1 && isDigitCh c2 && isDigitCh c3 && isDigitCh c4 then
      some (1000 * digitVal c1 + 100 * digitVal c2 + 10 * digitVal c3 + digitVal c4, rest)
    else none
  | _ => none

/-- The `%m` directive of `_strptime`: regex `1[0-2]|0[1-9]|[1-9]`,
alternatives tried left to right. -/
def parseMonth : List Char → Option (Nat × List Char)
  | [] => none
  | [c] => if '1' ≤ c && c ≤ '9' then some (digitVal c, []) else none
  | c1 :: c2 :: rest =>
    if c1 == '1' && '0' ≤ c2 && c2 ≤ '2' then some (10 + digitVal c2, rest)
    else if c1 == '0' && '1' ≤ c2 && c2 ≤ '9' then some (digitVal c2, rest)
    else if '1' ≤ c1 && c1 ≤ '9' then some (digitVal c1, c2 :: rest)
    else none

/-- The `%d` directive of `_strptime`: regex `3[01]|[12]\d|0[1-9]|[1-9]`. -/
def parseDay : List Char → Option (Nat × List Char)
  | [] => none
  | [c] => if '1' ≤ c && c ≤ '9' then some (digitVal c, []) else none
  | c1 :: c2 :: rest =>
    if c1 == '3' && (c2 == '0' || c2 == '1') then some (30 + digitVal c2, rest)
    else if (c1 == '1' || c1 == '2') && isDigitCh c2 then
      some (10 * digitVal c1 + digitVal c2, rest)
    else if c1 == '0' && '1' ≤ c2 && c2 ≤ '9' then some (digitVal c2, rest)
    else if '1' ≤ c1 && c1 ≤ '9' then some (digitVal c1, c2 :: rest)
    else none

/-- The `%H` directive: regex `2[0-3]|[0-1]\d|\d`. -/
def parseHour : List Char → Option (Nat × List Char)
  | [] => none
  | [c] => if isDigitCh c then some (digitVal c, []) else none
  | c1 :: c2 :: rest =>
    if c1 == '2' && '0' ≤ c2 && c2 ≤ '3' then some (20 + digitVal c2, rest)
    else if (c1 == '0' || c1 == '1') && isDigitCh c2 then
      some (10 * digitVal c1 + digitVal c2, rest)
    else if isDigitCh c1 then some (digitVal c1, c2 :: rest)
    else none

/-- The `%M` and `%S` directives: regex `[0-5]\d|\d`. -/
def parseMinSec : List Char → Option (Nat × List Char)
  | [] => none
  | [c] => if isDigitCh c then some (digitVal c, []) else none
  | c1 :: c2 :: rest =>
    if '0' ≤ c1 && c1 ≤ '5' && isDigitCh c2 then
      some (10 * digitVal c1 + digitVal c2, rest)
    else if isDigitCh c1 then some (digitVal c1, c2 :: rest)
    else none

/-- A literal character of a format string. -/
def expectChar (c : Char) : List Char → Option (List Char)
  | [] => none
  | a :: rest => if a == c then some rest else none

/-- `datetime.strptime(s, '%Y-%m-%d').date()`: full-match parse with
the date constructor's validity check. -/
def strptimeYmd (l : List Char) : Option Fecha := do
  let (y, r1) ← parse4Digits l
  let r2 ← expectChar '-' r1
  let (m, r3) ← parseMonth r2
  let r4 ← expectChar '-' r3
  let (d, r5) ← parseDay r4
  if r5 = [] ∧ fechaValida y m d = true then pure ⟨y, m, d⟩ else none

/-- `datetime.strptime(s, '%d/%m/%Y')` or `'%d-%m-%Y'` (the separator
is the argument), with `.date()`. -/
def strptimeDmy (sep : Char) (l : List Char) : Option Fecha := do
  let (d, r1) ← parseDay l
  let r2 ← expectChar sep r1
  let (m, r3) ← parseMonth r2
  let r4 ← expectChar sep r3
  let (y, r5) ← parse4Digits r4
  if r5 = [] ∧ fechaValida y m d = true then pure ⟨y, m, d⟩ else none

/-- `datetime.strptime(s, '%Y-%m-%d %H:%M:%S').date()`. -/
def strptimeYmdHMS (l : List Char) : Option Fecha := do
  let (y, r1) ← parse4Digits l
  let r2 ← expectChar '-' r1
  let (m, r3) ← parseMonth r2
  let r4 ← expectChar '-' r3
  let (d, r5) ← parseDay r4
  let r6 ← expectChar ' ' r5
  let (_, r7) ← parseHour r6
  let r8 ← expectChar ':' r7
  let (_, r9) ← parseMinSec r8
  let r10 ← expectChar ':' r9
  let (_, r11) ← parseMinSec r10
  if r11 = [] ∧ fechaValida y m d = true then pure ⟨y, m, d⟩ else none

/-- The format tuple of `_parsear_fecha`, in source order. -/
inductive FmtGop
  | ymd
  | dmySlash
  | dmyDash
  | ymdHMS
deriving DecidableEq, Repr

def strptimeFmt : FmtGop → List Char → Option Fecha
  | .ymd, l => strptimeYmd l
  | .dmySlash, l => strptimeDmy '/' l
  | .dmyDash, l => strptimeDmy '-' l
  | .ymdHMS, l => strptimeYmdHMS l

def formatosGop : List FmtGop := [.ymd, .dmySlash, .dmyDash, .ymdHMS]

/-- One iteration of the `for fmt in (...)` loop body of
`_parsear_fecha`: datetime-looking strings take only the first ten
characters and are parsed as ISO, the rest are parsed with the
iteration's format. -/
def intentaFormato (l : List Char) (fmt : FmtGop) : Option Fecha :=
  if 'T' ∈ l ∨ ':' ∈ l then strptimeYmd (l.take 10)
  else strptimeFmt fmt l

/-- The format loop: the first successful parse wins; a `ValueError`
(`none`) moves on to the next format; falling off the loop yields
`None`. -/
def pruebaFormatos : List FmtGop → List Char → Option Fecha
  | [], _ => none
  | f :: fs, l =>
    match intentaFormato l f with
    | some d => some d
    | none => pruebaFormatos fs l

/-- `_parsear_fecha(fecha_str)`: sentinel values give `None`, otherwise
the stripped string goes through the format loop. -/
def parsearFecha (fecha_str : String) : Option Fecha :=
  if fecha_str = "" ∨ pyStrip fecha_str ∈ ["", "nan", "None"] then none
  else pruebaFormatos formatosGop (pyStrip fecha_str).data

/-- Zero-padded decimal rendering used to build ISO `YYYY-MM-DD` text. -/
def digitChar : Nat → Char
  | 0 => '0' | 1 => '1' | 2 => '2' | 3 => '3' | 4 => '4'
  | 5 => '5' | 6 => '6' | 7 => '7' | 8 => '8' | 9 => '9'
  | _ => '*'

def pad2 (n : Nat) : List Char := [digitChar (n / 10), digitChar (n % 10)]

def pad4 (n : Nat) : List Char :=
  [digitChar (n / 1000), digitChar (n / 100 % 10), digitChar (n / 10 % 10), digitChar (n % 10)]

/-- The canonical ISO `YYYY-MM-DD` rendering of a date. -/
def isoString (y m d : Nat) : String :=
  ⟨pad4 y ++ '-' :: (pad2 m ++ '-' :: pad2 d)⟩

/-- Every lowercase image in the case-mapping table is itself outside
the table's domain, so lowering is idempotent. -/
theorem lowerTable_image_not_domain :
    ∀ p ∈ lowerTable, lowerTable.find? (fun q => q.1 == p.2) = none := by
  decide

theorem pyLowerChar_idem (c : Char) : pyLowerChar (pyLowerChar c) = pyLowerChar c := by
  unfold pyLowerChar
  cases h : lowerTable.find? (fun p => p.1 == c) with
  | none => simp [h]
  | some p =>
      have hp : p ∈ lowerTable := List.mem_of_find?_eq_some h
      have := lowerTable_image_not_domain p hp
      simp [this]

theorem pyLower_idem (s : String) : pyLower (pyLower s) = pyLower s := by
  unfold pyLower
  congr 1
  simp only [List.map_map]
  exact List.map_congr_left (fun c _ => pyLowerChar_idem c)

theorem pyLower_eq_empty_iff (s : String) : pyLower s = "" ↔ s = "" := by
  unfold pyLower
  constructor
  · intro h
    have h1 : s.data.map pyLowerChar = [] := congrArg String.data h
    have h2 : s.data = [] := List.map_eq_nil_iff.mp h1
    cases s with
    | mk d =>
        simp only at h2
        simp [h2]
  · intro h
    subst h
    rfl

/-- A scraped grid record, as built by `_leer_fila` and by
`_buscar_gops_en_pagina_simple`. -/
structure Datos where
  nro_sistema : String
  expediente : String
  estado : String
  profesional : String
  nomenclatura : String
  bandeja_actual : String
  fecha_entrada : String
  fecha_en_bandeja : String
  usuario_asignado : String
  fuente : String
deriving DecidableEq, Repr

/-- `cells.nth(i).inner_text().strip() if cell_count > i else ""`:
a row is the list of its cells' raw inner text. -/
def celda (cells : List String) (i : Nat) : String :=
  match cells.get? i with
  | some t => pyStrip t
  | none => ""

/-- `_leer_fila(cells)` of `_buscar_gops_en_pagina_multiple`, reading
one grid row under the enclosing `fuente`: fewer than six cells is a
non-data row; "Mis Bandejas" takes date-in-tray/user from offsets 6/7,
any other source from offsets 7/8. -/
def leerFila (fuente : String) (cells : List String) : Option Datos :=
  if cells.length < 6 then none
  else
    some {
      nro_sistema := celda cells 0
      expediente := celda cells 1
      estado := celda cells 2
      profesional := celda cells 3
      nomenclatura := celda cells 4
      bandeja_actual := celda cells 5
      fecha_entrada := celda cells 6
      fecha_en_bandeja := if fuente = "Mis Bandejas" then celda cells 6 else celda cells 7
      usuario_asignado := if fuente = "Mis Bandejas" then celda cells 7 else celda cells 8
      fuente := fuente }

/-- One row of `_buscar_gops_en_pagina_simple`: a record is produced
when the row has at least six cells and its tracking number is among
the searched ones, with the same source-dependent column offsets. -/
def filaSimple (fuente : String) (gops_buscados : List String) (cells : List String) :
    Option Datos :=
  if 6 ≤ cells.length then
    let nro := celda cells 0
    if nro ∈ gops_buscados then
      some {
        nro_sistema := nro
        expediente := celda cells 1
        estado := celda cells 2
        profesional := celda cells 3
        nomenclatura := celda cells 4
        bandeja_actual := celda cells 5
        fecha_entrada := celda cells 6
        fecha_en_bandeja := if fuente = "Mis Bandejas" then celda cells 6 else celda cells 7
        usuario_asignado := if fuente = "Mis Bandejas" then celda cells 7 else celda cells 8
        fuente := fuente }
    else none
  else none

/-- The scan loop of `_buscar_gops_en_pagina_simple`
(`for i in range(min(count, 50))`, breaking at the first hit).
Returns the found dictionary and the number of rows visited. -/
def buscarSimpleGo (fuente : String) (gops_buscados : List String) :
    Nat → List (List String) → List (String × Datos) × Nat
  | _, [] => ([], 0)
  | i, cells :: rest =>
    match filaSimple fuente gops_buscados cells with
    | some datos =>
        ([(datos.nro_sistema ++ "_" ++ fuente ++ "_filtrado_" ++ toString i, datos)], 1)
    | none =>
        let r := buscarSimpleGo fuente gops_buscados (i + 1) rest
        (r.1, r.2 + 1)

/-- `_buscar_gops_en_pagina_simple(page, gops_buscados, fuente, _)`:
the page is given as the list of its rows' cell texts. -/
def buscarGopsEnPaginaSimple (fuente : String) (gops_buscados : List String)
    (rows : List (List String)) : List (String × Datos) × Nat :=
  buscarSimpleGo fuente gops_buscados 0 (rows.take (min rows.length 50))

/-- The inner row loop of `_buscar_gops_en_pagina_multiple`: every row
of the page goes through `_leer_fila`; a row whose tracking number is
still pending is collected and the number removed, and the loop breaks
once nothing is pending.  Returns (found, still pending, rows visited). -/
def buscarMultipleFilas (fuente : String) (pagina : Nat) :
    Nat → List String → List (List String) → List (String × Datos) × List String × Nat
  | _, pend, [] => ([], pend, 0)
  | i, pend, cells :: rest =>
    match leerFila fuente cells with
    | none =>
        let r := buscarMultipleFilas fuente pagina (i + 1) pend rest
        (r.1, r.2.1, r.2.2 + 1)
    | some datos =>
        if datos.nro_sistema ∈ pend then
          let key := datos.nro_sistema ++ "_" ++ fuente ++ "_p" ++ toString pagina
            ++ "_r" ++ toString i
          let pend' := pend.filter (fun x => x ≠ datos.nro_sistema)
          if pend' = [] then ([(key, datos)], pend', 1)
          else
            let r := buscarMultipleFilas fuente pagina (i + 1) pend' rest
            ((key, datos) :: r.1, r.2.1, r.2.2 + 1)
        else
          let r := buscarMultipleFilas fuente pagina (i + 1) pend rest
          (r.1, r.2.1, r.2.2 + 1)

/-- The page loop of `_buscar_gops_en_pagina_multiple`
(`while pendientes and pagina_actual <= max_pages`), where the grid is
given as the list of its pages and advancing past the last page fails
(`_hay_siguiente_pagina_y_click` returns false).  Returns
(found, total rows visited, pages visited). -/
def buscarMultiplePaginas (fuente : String) (max_pages : Nat) :
    Nat → List String → List (List (List String)) → List (String × Datos) × Nat × Nat
  | _, _, [] => ([], 0, 0)
  | pagina, pend, page :: rest =>
    if pend = [] ∨ max_pages < pagina then ([], 0, 0)
    else
      let r := buscarMultipleFilas fuente pagina 0 pend page
      if r.2.1 = [] then (r.1, r.2.2, 1)
      else
        let r2 := buscarMultiplePaginas fuente max_pages (pagina + 1) r.2.1 rest
        (r.1 ++ r2.1, r.2.2 + r2.2.1, r2.2.2 + 1)

/-- `_buscar_gops_en_pagina_multiple(page, gops_buscados, fuente)` with
the default `max_pages=100`: the pending set is the stripped, non-blank,
deduplicated tracking numbers. -/
def buscarGopsEnPaginaMultiple (fuente : String) (gops_buscados : List String)
    (pages : List (List (List String))) : List (String × Datos) × Nat × Nat :=
  buscarMultiplePaginas fuente 100 1
    (((gops_buscados.map pyStrip).filter (fun x => x ≠ "")).dedup) pages

/-- One row of the `historial_bandejas` table.  Dates are modelled as
day numbers (`Int`): the ledger uses only date ordering and day
differences.  The audit timestamps (`created_at`/`updated_at`) carry no
ledger semantics and are not modelled. -/
structure Registro where
  id : Nat
  expediente_id : Nat
  bandeja_tipo : String
  bandeja_nombre : String
  usuario_asignado : String
  fecha_inicio : Int
  fecha_fin : Option Int
  dias_en_bandeja : Option Int
deriving DecidableEq, Repr

/-- The `historial_bandejas` table, with its serial id sequence. -/
structure HistState where
  nextId : Nat
  rows : List Registro
deriving DecidableEq, Repr

/-- The per-queue snapshot value handed to the history update
(`datos_bandejas_historial[bandeja_tipo]`). -/
structure DatosHist where
  nombre : String
  usuario : String
  fecha : Option Int
deriving DecidableEq, Repr

/-- The `WHERE expediente_id = .. AND bandeja_tipo = .. AND
fecha_fin IS NULL` condition. -/
def esActivo (expediente_id : Nat) (bandeja_tipo : String) (r : Registro) : Bool :=
  r.expediente_id == expediente_id && r.bandeja_tipo == bandeja_tipo && r.fecha_fin == none

/-- The `fetchone()` of the open-interval query (`SELECT id, ...`). -/
def registroActivo (s : HistState) (expediente_id : Nat) (bandeja_tipo : String) :
    Option Registro :=
  (s.rows.filter (esActivo expediente_id bandeja_tipo)).head?

/-- `_crear_nuevo_registro_historial`: INSERT of a fresh open row with
label and user truncated to 200 characters. -/
def crearNuevoRegistroHistorial (expediente_id : Nat) (bandeja_tipo nombre usuario : String)
    (fecha_inicio : Int) (s : HistState) : HistState :=
  { nextId := s.nextId + 1
    rows := s.rows ++ [{
      id := s.nextId
      expediente_id := expediente_id
      bandeja_tipo := bandeja_tipo
      bandeja_nombre := nombre.take 200
      usuario_asignado := usuario.take 200
      fecha_inicio := fecha_inicio
      fecha_fin := none
      dias_en_bandeja := none }] }

/-- `UPDATE historial_bandejas SET fecha_fin = .., dias_en_bandeja = ..
WHERE id = ..`. -/
def cerrarRegistro (registro_id : Nat) (fecha_fin dias : Int) (s : HistState) : HistState :=
  { s with rows := s.rows.map fun r =>
      if r.id == registro_id then
        { r with fecha_fin := some fecha_fin, dias_en_bandeja := some dias }
      else r }

/-- The body of the `for bandeja_tipo, datos in datos_nuevos.items()`
loop of `_actualizar_historial_tras_sincronizacion`: a blank queue
label skips the entry; with an open interval whose stored label or
occupant differ, the interval is closed (end = snapshot date, duration
clamped at zero) and a fresh open one is created; with no open
interval, one is created at the snapshot date (today as fallback). -/
def pasoHistorial (expediente_id : Nat) (hoy : Int) (s : HistState)
    (entrada : String × DatosHist) : HistState :=
  let bandeja_tipo := entrada.1
  let datos := entrada.2
  if datos.nombre = "" then s
  else
    let fecha_bandeja := datos.fecha.getD hoy
    match registroActivo s expediente_id bandeja_tipo with
    | some registro =>
        if registro.bandeja_nombre ≠ datos.nombre
            ∨ registro.usuario_asignado ≠ datos.usuario then
          let dias_en_bandeja := fecha_bandeja - registro.fecha_inicio
          let s1 := cerrarRegistro registro.id fecha_bandeja (max 0 dias_en_bandeja) s
          crearNuevoRegistroHistorial expediente_id bandeja_tipo datos.nombre
            datos.usuario fecha_bandeja s1
        else s
    | none =>
        crearNuevoRegistroHistorial expediente_id bandeja_tipo datos.nombre
          datos.usuario fecha_bandeja s

/-- `_actualizar_historial_tras_sincronizacion(expediente_id,
datos_nuevos)` with the snapshot dict as an insertion-ordered
association list.  The early returns for a missing
`historial_bandejas` table or a missing expediente make the whole
update a no-op; the model covers the main path where both exist. -/
def actualizarHistorialTrasSincronizacion (expediente_id : Nat)
    (datos_nuevos : List (String × DatosHist)) (hoy : Int) (s : HistState) : HistState :=
  datos_nuevos.foldl (pasoHistorial expediente_id hoy) s

/-- Number of open ledger intervals for one (case, queue) pair. -/
def countOpen (e : Nat) (t : String) (s : HistState) : Nat :=
  (s.rows.filter (esActivo e t)).length

/-- Primary-key well-formedness of the ledger table: ids are below the
sequence value and pairwise distinct. -/
def HistWF (s : HistState) : Prop :=
  (∀ r ∈ s.rows, r.id < s.nextId) ∧ (s.rows.map (fun r => r.id)).Nodup

/-- The error entries `sync_gop_data` appends to `stats['errores']`,
by kind (the message strings are determined by the entry's data). -/
inductive SyncError
  | sinExpedientes
  | noEncontradoEnBD (gop : String)
  | noDigital (gop : String) (fmt : String)
deriving DecidableEq, Repr

/-- The run-statistics dictionary of `sync_gop_data`. -/
structure Stats where
  total_gop_encontrados : Nat
  expedientes_actualizados : Nat
  expedientes_no_encontrados : Int
  bandejas_cpim : Nat
  bandejas_imlauer : Nat
  bandejas_onetto : Nat
  bandejas_profesional : Nat
  errores : List SyncError
deriving DecidableEq, Repr

/-- `stats[f'bandejas_{bandeja_tipo}'] += 1`; the classifier only ever
produces the four known queue names. -/
def incBandeja (stats : Stats) (tipo : String) : Stats :=
  if tipo = "cpim" then { stats with bandejas_cpim := stats.bandejas_cpim + 1 }
  else if tipo = "imlauer" then { stats with bandejas_imlauer := stats.bandejas_imlauer + 1 }
  else if tipo = "onetto" then { stats with bandejas_onetto := stats.bandejas_onetto + 1 }
  else if tipo = "profesional" then
    { stats with bandejas_profesional := stats.bandejas_profesional + 1 }
  else stats

/-- PASO 4 of `sync_gop_data`: group the scraper's result dict by
tracking number (`nro_sistema`), in insertion order. -/
def agregarAgrupado (acc : List (String × List Datos)) (d : Datos) :
    List (String × List Datos) :=
  if acc.any (fun p => p.1 == d.nro_sistema) then
    acc.map (fun p => if p.1 == d.nro_sistema then (p.1, p.2 ++ [d]) else p)
  else acc ++ [(d.nro_sistema, [d])]

def gopAgrupados (resultados : List (String × Datos)) : List (String × List Datos) :=
  resultados.foldl (fun acc kv => agregarAgrupado acc kv.2) []

/-- The statistics bookkeeping of one iteration of the PASO 5 loop of
`sync_gop_data`: the expediente lookup (whose WHERE clause restricts to
digital format) either fails — error recorded, loop continues — or the
case is updated; per-queue counters are bumped once per scraped record
of the group. -/
def pasoSyncStats (db : String → Option (Nat × String)) (stats : Stats)
    (entry : String × List Datos) : Stats :=
  match db entry.1 with
  | none =>
      { stats with errores := stats.errores ++ [SyncError.noEncontradoEnBD entry.1] }
  | some (_, fmt) =>
      if fmt ≠ "Digital" then
        { stats with errores := stats.errores ++ [SyncError.noDigital entry.1 fmt] }
      else
        let stats1 := entry.2.foldl (fun st datos =>
          incBandeja st (determinarBandejaPorUsuario datos.usuario_asignado datos.fuente)) stats
        { stats1 with expedientes_actualizados := stats1.expedientes_actualizados + 1 }

/-- The statistics of a whole `sync_gop_data` run over the collected
tracking numbers and the scraper's result dict: the early return on an
empty collection, the initial statistics of PASO 5, and the per-case
loop. -/
def syncStats (db : String → Option (Nat × String)) (gop_list : List String)
    (resultados : List (String × Datos)) : Stats :=
  if gop_list = [] then
    ⟨0, 0, 0, 0, 0, 0, 0, [SyncError.sinExpedientes]⟩
  else
    let agrupados := gopAgrupados resultados
    let inicial : Stats :=
      ⟨agrupados.length, 0, (gop_list.length : Int) - agrupados.length, 0, 0, 0, 0, []⟩
    agrupados.foldl (pasoSyncStats db) inicial

/-- Count of "not found in the store as a digital expediente" failures
in the error list. -/
def cuentaNoEncontrado (es : List SyncError) : Nat :=
  (es.filter (fun e => match e with | .noEncontradoEnBD _ => true | _ => false)).length

/-- Count of non-digital-format skips in the error list. -/
def cuentaNoDigital (es : List SyncError) : Nat :=
  (es.filter (fun e => match e with | .noDigital _ _ => true | _ => false)).length

/-- The per-queue column group `bandeja_{tipo}_*` of an `expedientes`
row (the sync timestamp column carries no modelled semantics). -/
structure BandejaCampos where
  nombre : Option String
  usuario : Option String
  fecha : Option Fecha
deriving DecidableEq, Repr

/-- The sync-related columns of one `expedientes` row. -/
structure ExpRow where
  bandeja_cpim : BandejaCampos
  bandeja_imlauer : BandejaCampos
  bandeja_onetto : BandejaCampos
  bandeja_profesional : BandejaCampos
  gop_bandeja_actual : Option String
  gop_usuario_asignado : Option String
  gop_estado : Option String
  gop_fecha_entrada : Option Fecha
  gop_fecha_en_bandeja : Option Fecha
deriving DecidableEq, Repr

/-- `_limpiar_campos_bandeja`: null out all four queue groups. -/
def limpiarCamposBandeja (row : ExpRow) : ExpRow :=
  { row with
    bandeja_cpim := ⟨none, none, none⟩
    bandeja_imlauer := ⟨none, none, none⟩
    bandeja_onetto := ⟨none, none, none⟩
    bandeja_profesional := ⟨none, none, none⟩ }

/-- The `UPDATE expedientes SET bandeja_{tipo}_... = ..` write of one
queue group. -/
def setBandeja (row : ExpRow) (tipo : String) (c : BandejaCampos) : ExpRow :=
  if tipo = "cpim" then { row with bandeja_cpim := c }
  else if tipo = "imlauer" then { row with bandeja_imlauer := c }
  else if tipo = "onetto" then { row with bandeja_onetto := c }
  else if tipo = "profesional" then { row with bandeja_profesional := c }
  else row

/-- Lines 300-305 of `sync_gop_data`: a record from "Todos los
Trámites" stores the constant "Profesional", any other record stores
the scraped user truncated to 200 characters. -/
def usuarioParaGuardar (datos : Datos) : String :=
  if datos.fuente = "Todos los Trámites" then "Profesional"
  else datos.usuario_asignado.take 200

/-- One iteration of the per-record loop of PASO 5: classify, parse the
two dates, and write that queue's columns (the date column falls back
from date-in-tray to entry date). -/
def aplicarRegistro (row : ExpRow) (datos : Datos) : ExpRow :=
  let bandeja_tipo := determinarBandejaPorUsuario datos.usuario_asignado datos.fuente
  let fecha_entrada := parsearFecha datos.fecha_entrada
  let fecha_en_bandeja := parsearFecha datos.fecha_en_bandeja
  setBandeja row bandeja_tipo
    ⟨some (datos.bandeja_actual.take 200),
     some (usuarioParaGuardar datos),
     fecha_en_bandeja.orElse (fun _ => fecha_entrada)⟩

/-- Lines 352-356 of `sync_gop_data`: the user written into the legacy
`gop_usuario_asignado` column, computed from the group's first
record. -/
def usuarioGopOriginal (primer_dato : Datos) : String :=
  if primer_dato.fuente = "Todos los Trámites" then "Profesional"
  else primer_dato.usuario_asignado.take 200

/-- The legacy single-queue `gop_*` column update of PASO 5. -/
def actualizarCamposGop (row : ExpRow) (primer_dato : Datos) : ExpRow :=
  { row with
    gop_bandeja_actual := some (primer_dato.bandeja_actual.take 200)
    gop_usuario_asignado := some (usuarioGopOriginal primer_dato)
    gop_estado := some (primer_dato.estado.take 100)
    gop_fecha_entrada := parsearFecha primer_dato.fecha_entrada
    gop_fecha_en_bandeja := parsearFecha primer_dato.fecha_en_bandeja }

/-- The whole field application for one case in PASO 5: clear the four
queue groups, apply each scraped record in order, then fill the legacy
columns from the group's first record (grouped lists are never empty
in a run; an empty group leaves the row untouched). -/
def aplicarCaso (row : ExpRow) (lista_datos : List Datos) : ExpRow :=
  match lista_datos.head? with
  | none => row
  | some primer_dato =>
      actualizarCamposGop (lista_datos.foldl aplicarRegistro (limpiarCamposBandeja row))
        primer_dato

theorem dropWhile_eq_self_of (p : Char → Bool) (l : List Char)
    (h : ∀ c ∈ l, p c = false) : l.dropWhile p = l := by
  cases l with
  | nil => rfl
  | cons a t =>
      rw [List.dropWhile_cons]
      simp [h a (List.mem_cons_self a t)]

theorem stripChars_eq_self (l : List Char) (h : ∀ c ∈ l, isPySpace c = false) :
    stripChars l = l := by
  unfold stripChars
  rw [dropWhile_eq_self_of _ _ h]
  rw [dropWhile_eq_self_of _ _ (fun c hc => h c (List.mem_reverse.mp hc))]
  exact List.reverse_reverse l

theorem isDigitCh_digitChar (n : Nat) (h : n < 10) : isDigitCh (digitChar n) = true := by
  interval_cases n <;> rfl

theorem digitVal_digitChar (n : Nat) (h : n < 10) : digitVal (digitChar n) = n := by
  interval_cases n <;> rfl

theorem digitChar_props (n : Nat) (h : n < 10) :
    isPySpace (digitChar n) = false ∧ digitChar n ≠ 'T' ∧ digitChar n ≠ ':' := by
  interval_cases n <;> exact ⟨rfl, by decide, by decide⟩

theorem daysInMonth_le_31 (y m : Nat) : daysInMonth y m ≤ 31 := by
  unfold daysInMonth
  split
  · split <;> omega
  · split <;> omega

theorem parse4Digits_pad4 (y : Nat) (hy : y ≤ 9999) (rest : List Char) :
    parse4Digits (pad4 y ++ rest) = some (y, rest) := by
  have h1 : y / 1000 < 10 := by omega
  have h2 : y / 100 % 10 < 10 := by omega
  have h3 : y / 10 % 10 < 10 := by omega
  have h4 : y % 10 < 10 := by omega
  have hval : 1000 * (y / 1000) + 100 * (y / 100 % 10) + 10 * (y / 10 % 10) + y % 10 = y := by
    omega
  simp only [pad4, List.cons_append, List.nil_append, parse4Digits,
    isDigitCh_digitChar _ h1, isDigitCh_digitChar _ h2, isDigitCh_digitChar _ h3,
    isDigitCh_digitChar _ h4, Bool.and_self, if_true,
    digitVal_digitChar _ h1, digitVal_digitChar _ h2, digitVal_digitChar _ h3,
    digitVal_digitChar _ h4, hval]

theorem parseMonth_pad2 (m : Nat) (h1 : 1 ≤ m) (h2 : m ≤ 12) (rest : List Char) :
    parseMonth (pad2 m ++ rest) = some (m, rest) := by
  interval_cases m <;> rfl

theorem parseDay_pad2 (d : Nat) (h1 : 1 ≤ d) (h2 : d ≤ 31) (rest : List Char) :
    parseDay (pad2 d ++ rest) = some (d, rest) := by
  interval_cases d <;> rfl

theorem strptimeYmd_iso (y m d : Nat) (h : fechaValida y m d = true) :
    strptimeYmd (pad4 y ++ '-' :: (pad2 m ++ '-' :: pad2 d)) = some ⟨y, m, d⟩ := by
  have hbounds := h
  simp only [fechaValida, Bool.and_eq_true, decide_eq_true_eq] at hbounds
  obtain ⟨⟨⟨⟨⟨hy1, hy2⟩, hm1⟩, hm2⟩, hd1⟩, hd2⟩ := hbounds
  have hd31 : d ≤ 31 := le_trans hd2 (daysInMonth_le_31 y m)
  have hpd : parseDay (pad2 d) = some (d, []) := by
    have := parseDay_pad2 d hd1 hd31 []
    simpa using this
  simp only [strptimeYmd, parse4Digits_pad4 y hy2, Option.bind_eq_bind,
    Option.some_bind, expectChar, beq_self_eq_true, if_true,
    parseMonth_pad2 m hm1 hm2, hpd, h, and_true]
  simp

theorem parsearFecha_iso (y m d : Nat) (h : fechaValida y m d = true) :
    parsearFecha (isoString y m d) = some ⟨y, m, d⟩ := by
  have hbounds := h
  simp only [fechaValida, Bool.and_eq_true, decide_eq_true_eq] at hbounds
  obtain ⟨⟨⟨⟨⟨hy1, hy2⟩, hm1⟩, hm2⟩, hd1⟩, hd2⟩ := hbounds
  have hd31 : d ≤ 31 := le_trans hd2 (daysInMonth_le_31 y m)
  have hall : ∀ c ∈ (isoString y m d).data, isPySpace c = false ∧ c ≠ 'T' ∧ c ≠ ':' := by
    intro c hc
    simp only [isoString, pad4, pad2, List.cons_append, List.nil_append,
      List.mem_cons, List.not_mem_nil, or_false] at hc
    rcases hc with h | h | h | h | h | h | h | h | h | h
    · exact h ▸ digitChar_props _ (by omega)
    · exact h ▸ digitChar_props _ (by omega)
    · exact h ▸ digitChar_props _ (by omega)
    · exact h ▸ digitChar_props _ (by omega)
    · exact h ▸ ⟨rfl, by decide, by decide⟩
    · exact h ▸ digitChar_props _ (by omega)
    · exact h ▸ digitChar_props _ (by omega)
    · exact h ▸ ⟨rfl, by decide, by decide⟩
    · exact h ▸ digitChar_props _ (by omega)
    · exact h ▸ digitChar_props _ (by omega)
  have hstrip : pyStrip (isoString y m d) = isoString y m d := by
    unfold pyStrip
    rw [stripChars_eq_self _ (fun c hc => (hall c hc).1)]
  have hlen : (isoString y m d).data.length = 10 := by
    simp [isoString, pad4, pad2]
  have hne1 : isoString y m d ≠ "" := by
    intro he; rw [he] at hlen; exact absurd hlen (by decide)
  have hne2 : isoString y m d ≠ "nan" := by
    intro he; rw [he] at hlen; exact absurd hlen (by decide)
  have hne3 : isoString y m d ≠ "None" := by
    intro he; rw [he] at hlen; exact absurd hlen (by decide)
  have hnoTcolon : ¬('T' ∈ (isoString y m d).data ∨ ':' ∈ (isoString y m d).data) := by
    rintro (hT | hC)
    · exact (hall _ hT).2.1 rfl
    · exact (hall _ hC).2.2 rfl
  unfold parsearFecha
  rw [if_neg]
  · rw [hstrip]
    unfold formatosGop pruebaFormatos intentaFormato
    rw [if_neg hnoTcolon]
    have : strptimeFmt FmtGop.ymd (isoString y m d).data = some ⟨y, m, d⟩ := by
      show strptimeYmd (isoString y m d).data = some ⟨y, m, d⟩
      have hdata : (isoString y m d).data = pad4 y ++ '-' :: (pad2 m ++ '-' :: pad2 d) := rfl
      rw [hdata, strptimeYmd_iso y m d h]
    rw [this]
  · rw [hstrip]
    simp only [List.mem_cons, List.not_mem_nil, or_false, not_or]
    exact ⟨hne1, hne1, hne2, hne3⟩

/-- C6: date parsing is total and forgiving — the embedding returns
`none` (the field stays null) on garbage such as "not-a-date" and on
the empty string instead of failing, and it is exact on already-valid
ISO `YYYY-MM-DD` strings, returning precisely the date they denote. -/
theorem claim_C6 :
    (∀ y m d : Nat, fechaValida y m d = true →
        parsearFecha (isoString y m d) = some ⟨y, m, d⟩)
    ∧ parsearFecha "not-a-date" = none
    ∧ parsearFecha "" = none :=
  ⟨parsearFecha_iso, by decide, by decide⟩

/-- C6 witness: the theorem applied at the concrete valid date 2024-05-03. -/
theorem claim_C6_witness :
    fechaValida 2024 5 3 = true ∧ parsearFecha (isoString 2024 5 3) = some ⟨2024, 5, 3⟩ :=
  ⟨by decide, claim_C6.1 2024 5 3 (by decide)⟩

/-- C1: for every assigned-user text, if the source view is
"Todos los Trámites" ("All Filings"), the queue classifier
`_determinar_bandeja_por_usuario` returns `'profesional'`, the default
queue, regardless of the username content. -/
theorem claim_C1 (usuario : String) :
    determinarBandejaPorUsuario usuario "Todos los Trámites" = "profesional" := by
  unfold determinarBandejaPorUsuario
  simp

/-- C9: under the "Mis Bandejas" ("My Trays") source view, classification
is case-insensitive (`classify s = classify (lower s)` for every string,
and in particular "FERNANDO" classifies like "fernando"), and any string
whose normalized form contains a keyword of a queue's fixed substring
set — with no earlier set matching — classifies to that queue. -/
theorem claim_C9 :
    (∀ s : String, determinarBandejaPorUsuario (pyLower s) "Mis Bandejas"
        = determinarBandejaPorUsuario s "Mis Bandejas")
    ∧ determinarBandejaPorUsuario "FERNANDO" "Mis Bandejas"
        = determinarBandejaPorUsuario "fernando" "Mis Bandejas"
    ∧ (∀ s : String, s ≠ "" →
        (palabrasCpim.any (fun p => pyIn p (pyStrip (pyLower s))) = true →
          determinarBandejaPorUsuario s "Mis Bandejas" = "cpim")
        ∧ (palabrasCpim.any (fun p => pyIn p (pyStrip (pyLower s))) = false →
           palabrasImlauer.any (fun p => pyIn p (pyStrip (pyLower s))) = true →
          determinarBandejaPorUsuario s "Mis Bandejas" = "imlauer")
        ∧ (palabrasCpim.any (fun p => pyIn p (pyStrip (pyLower s))) = false →
           palabrasImlauer.any (fun p => pyIn p (pyStrip (pyLower s))) = false →
           palabrasOnetto.any (fun p => pyIn p (pyStrip (pyLower s))) = true →
          determinarBandejaPorUsuario s "Mis Bandejas" = "onetto")) := by
  have h0 : ("Mis Bandejas" == "Todos los Trámites") = false := by decide
  refine ⟨?_, ?_, ?_⟩
  · intro s
    by_cases hs : s = ""
    · subst hs; rfl
    · have hs2 : pyLower s ≠ "" := fun h => hs ((pyLower_eq_empty_iff s).mp h)
      have h1 : (s == "") = false := beq_eq_false_iff_ne.mpr hs
      have h2 : (pyLower s == "") = false := beq_eq_false_iff_ne.mpr hs2
      unfold determinarBandejaPorUsuario
      simp only [h0, Bool.false_eq_true, if_false, h1, h2]
      rw [pyLower_idem]
  · decide
  · intro s hs
    have h1 : (s == "") = false := beq_eq_false_iff_ne.mpr hs
    refine ⟨?_, ?_, ?_⟩
    · intro hc
      unfold determinarBandejaPorUsuario
      simp only [h0, Bool.false_eq_true, if_false, h1, hc, if_true]
    · intro hc hi
      unfold determinarBandejaPorUsuario
      simp only [h0, Bool.false_eq_true, if_false, h1, hc, hi, if_true]
    · intro hc hi ho
      unfold determinarBandejaPorUsuario
      simp only [h0, Bool.false_eq_true, if_false, h1, hc, hi, ho, if_true]

/-- C9 witness: a concrete uppercase username classifies to the
imlauer queue via the theorem's substring-match clause. -/
theorem claim_C9_witness :
    determinarBandejaPorUsuario "FERNANDO" "Mis Bandejas" = "imlauer" :=
  ((claim_C9.2.2 "FERNANDO" (by decide)).2.1 (by decide) (by decide))

/-- C7: row extraction is source-view dependent — under "Mis Bandejas"
the date-in-current-tray and assigned-user fields come from cell
offsets 6 and 7, under "Todos los Trámites" from offsets 7 and 8 — and
a row with fewer than six cells yields no record, in both `_leer_fila`
and the filtered single-page search. -/
theorem claim_C7 :
    (∀ fuente cells, cells.length < 6 → leerFila fuente cells = none)
    ∧ (∀ cells : List String, 6 ≤ cells.length →
        ∃ d, leerFila "Mis Bandejas" cells = some d
          ∧ d.fecha_en_bandeja = celda cells 6 ∧ d.usuario_asignado = celda cells 7)
    ∧ (∀ cells : List String, 6 ≤ cells.length →
        ∃ d, leerFila "Todos los Trámites" cells = some d
          ∧ d.fecha_en_bandeja = celda cells 7 ∧ d.usuario_asignado = celda cells 8)
    ∧ (∀ fuente gops cells, cells.length < 6 → filaSimple fuente gops cells = none)
    ∧ (∀ (gops : List String) (cells : List String), 6 ≤ cells.length →
        celda cells 0 ∈ gops →
        ∃ d, filaSimple "Mis Bandejas" gops cells = some d
          ∧ d.fecha_en_bandeja = celda cells 6 ∧ d.usuario_asignado = celda cells 7)
    ∧ (∀ (gops : List String) (cells : List String), 6 ≤ cells.length →
        celda cells 0 ∈ gops →
        ∃ d, filaSimple "Todos los Trámites" gops cells = some d
          ∧ d.fecha_en_bandeja = celda cells 7 ∧ d.usuario_asignado = celda cells 8) := by
  refine ⟨?_, ?_, ?_, ?_, ?_, ?_⟩
  · intro fuente cells h
    simp [leerFila, h]
  · intro cells h
    simp only [leerFila, if_neg (Nat.not_lt.mpr h)]
    exact ⟨_, rfl, by simp, by simp⟩
  · intro cells h
    simp only [leerFila, if_neg (Nat.not_lt.mpr h)]
    refine ⟨_, rfl, ?_, ?_⟩
    · simp only [if_neg (show ¬("Todos los Trámites" = "Mis Bandejas") by decide)]
    · simp only [if_neg (show ¬("Todos los Trámites" = "Mis Bandejas") by decide)]
  · intro fuente gops cells h
    simp [filaSimple, Nat.not_le.mpr h]
  · intro gops cells h hmem
    simp only [filaSimple, if_pos h, if_pos hmem]
    exact ⟨_, rfl, by simp, by simp⟩
  · intro gops cells h hmem
    simp only [filaSimple, if_pos h, if_pos hmem]
    refine ⟨_, rfl, ?_, ?_⟩
    · simp only [if_neg (show ¬("Todos los Trámites" = "Mis Bandejas") by decide)]
    · simp only [if_neg (show ¬("Todos los Trámites" = "Mis Bandejas") by decide)]

/-- C7 witness: a three-cell row is skipped, and a nine-cell row under
"Todos los Trámites" takes its date/user fields from offsets 7 and 8. -/
theorem claim_C7_witness :
    leerFila "Mis Bandejas" ["a", "b", "c"] = none
    ∧ (∃ d, leerFila "Todos los Trámites" ["0", "1", "2", "3", "4", "5", "6", "7", "8"]
          = some d
        ∧ d.fecha_en_bandeja = celda ["0", "1", "2", "3", "4", "5", "6", "7", "8"] 7
        ∧ d.usuario_asignado = celda ["0", "1", "2", "3", "4", "5", "6", "7", "8"] 8) :=
  ⟨claim_C7.1 "Mis Bandejas" ["a", "b", "c"] (by decide),
   claim_C7.2.2.1 ["0", "1", "2", "3", "4", "5", "6", "7", "8"] (by decide)⟩

theorem buscarSimpleGo_le (fuente : String) (gops : List String) :
    ∀ (l : List (List String)) (i : Nat), (buscarSimpleGo fuente gops i l).2 ≤ l.length := by
  intro l
  induction l with
  | nil => intro i; simp [buscarSimpleGo]
  | cons c rest ih =>
      intro i
      unfold buscarSimpleGo
      cases h : filaSimple fuente gops c with
      | some d => simp
      | none =>
          simp only [List.length_cons]
          exact Nat.succ_le_succ (ih (i + 1))

theorem buscarMultiplePaginas_pages_le (fuente : String) (mp : Nat) :
    ∀ (pages : List (List (List String))) (pagina : Nat) (pend : List String),
      (buscarMultiplePaginas fuente mp pagina pend pages).2.2 ≤ mp + 1 - pagina := by
  intro pages
  induction pages with
  | nil => intro pagina pend; simp [buscarMultiplePaginas]
  | cons page rest ih =>
      intro pagina pend
      unfold buscarMultiplePaginas
      by_cases hcond : pend = [] ∨ mp < pagina
      · simp [hcond]
      · rw [if_neg hcond]
        have hple : pagina ≤ mp := by
          rcases not_or.mp hcond with ⟨_, h2⟩
          omega
        by_cases hdone : (buscarMultipleFilas fuente pagina 0 pend page).2.1 = []
        · rw [if_pos hdone]
          show 1 ≤ mp + 1 - pagina
          omega
        · rw [if_neg hdone]
          have := ih (pagina + 1) (buscarMultipleFilas fuente pagina 0 pend page).2.1
          show (buscarMultiplePaginas fuente mp (pagina + 1)
              ((buscarMultipleFilas fuente pagina 0 pend page).2.1) rest).2.2 + 1
              ≤ mp + 1 - pagina
          omega

set_option maxRecDepth 4000 in
/-- C8 counterexample: the claimed constant cap of 200 rows per call
does not exist — a single 201-row page makes the paginated search of
`_buscar_gops_en_pagina_multiple` visit 201 rows in one call. -/
theorem claim_C8_counterexample :
    ¬((buscarGopsEnPaginaMultiple "Mis Bandejas" ["X"]
        [List.replicate 201 ([] : List String)]).2.1 ≤ 200) := by
  decide

theorem esActivo_iff (e : Nat) (t : String) (r : Registro) :
    esActivo e t r = true ↔ r.expediente_id = e ∧ r.bandeja_tipo = t ∧ r.fecha_fin = none := by
  simp [esActivo, and_assoc]

theorem esActivo_closed (e : Nat) (t : String) (v d : Int) (x : Registro) :
    esActivo e t { x with fecha_fin := some v, dias_en_bandeja := some d } = false := by
  simp [esActivo]

theorem pasoHistorial_eq (expId : Nat) (hoy : Int) (s : HistState) (x : String × DatosHist) :
    pasoHistorial expId hoy s x =
      if x.2.nombre = "" then s
      else
        match registroActivo s expId x.1 with
        | some r =>
            if r.bandeja_nombre ≠ x.2.nombre ∨ r.usuario_asignado ≠ x.2.usuario then
              crearNuevoRegistroHistorial expId x.1 x.2.nombre x.2.usuario (x.2.fecha.getD hoy)
                (cerrarRegistro r.id (x.2.fecha.getD hoy)
                  (max 0 (x.2.fecha.getD hoy - r.fecha_inicio)) s)
            else s
        | none =>
            crearNuevoRegistroHistorial expId x.1 x.2.nombre x.2.usuario (x.2.fecha.getD hoy) s
    := rfl

theorem countOpen_crear_same (expId : Nat) (tipo n u : String) (f : Int) (s : HistState) :
    countOpen expId tipo (crearNuevoRegistroHistorial expId tipo n u f s)
      = countOpen expId tipo s + 1 := by
  unfold countOpen crearNuevoRegistroHistorial
  rw [List.filter_append]
  simp [esActivo]

theorem countOpen_crear_other (e expId : Nat) (t tipo n u : String) (f : Int) (s : HistState)
    (h : ¬(expId = e ∧ tipo = t)) :
    countOpen e t (crearNuevoRegistroHistorial expId tipo n u f s) = countOpen e t s := by
  unfold countOpen crearNuevoRegistroHistorial
  rw [List.filter_append]
  have hfalse : esActivo e t
      ⟨s.nextId, expId, tipo, n.take 200, u.take 200, f, none, none⟩ = false := by
    rw [Bool.eq_false_iff]
    intro hc
    rcases (esActivo_iff e t _).mp hc with ⟨h1, h2, _⟩
    exact h ⟨h1, h2⟩
  simp [hfalse]

theorem length_filter_map_le (l : List Registro) (f : Registro → Registro)
    (p : Registro → Bool) (hf : ∀ x ∈ l, p (f x) = true → p x = true) :
    ((l.map f).filter p).length ≤ (l.filter p).length := by
  induction l with
  | nil => simp
  | cons a rest ih =>
      have ih2 := ih (fun x hx h => hf x (List.mem_cons_of_mem _ hx) h)
      simp only [List.map_cons, List.filter_cons]
      by_cases hpa : p (f a) = true
      · rw [if_pos hpa, if_pos (hf a (List.mem_cons_self a rest) hpa)]
        simpa using ih2
      · rw [if_neg hpa]
        by_cases hqa : p a = true
        · rw [if_pos hqa]
          simp only [List.length_cons]
          omega
        · rw [if_neg hqa]
          exact ih2

theorem countOpen_cerrar_le (rid : Nat) (v d : Int) (e : Nat) (t : String) (s : HistState) :
    countOpen e t (cerrarRegistro rid v d s) ≤ countOpen e t s := by
  unfold countOpen cerrarRegistro
  refine length_filter_map_le _ _ _ ?_
  intro x _ hx
  by_cases hid : (x.id == rid) = true
  · rw [if_pos hid] at hx
    rw [esActivo_closed] at hx
    exact absurd hx (by simp)
  · rwa [if_neg hid] at hx

theorem countOpen_cerrar_head (e : Nat) (t : String) (v d : Int) (s : HistState) (r : Registro)
    (hr : s.rows.filter (esActivo e t) = [r]) :
    countOpen e t (cerrarRegistro r.id v d s) = 0 := by
  unfold countOpen cerrarRegistro
  rw [List.length_eq_zero, List.filter_eq_nil_iff]
  intro y hy
  obtain ⟨x, hx, rfl⟩ := List.mem_map.mp hy
  by_cases hid : (x.id == r.id) = true
  · rw [if_pos hid, esActivo_closed]
    simp
  · rw [if_neg hid]
    intro hax
    have hxmem : x ∈ s.rows.filter (esActivo e t) := List.mem_filter.mpr ⟨hx, hax⟩
    rw [hr] at hxmem
    have : x = r := by simpa using hxmem
    subst this
    simp at hid

theorem registroActivo_none_filter (s : HistState) (e : Nat) (t : String)
    (h : registroActivo s e t = none) : s.rows.filter (esActivo e t) = [] := by
  unfold registroActivo at h
  cases hf : s.rows.filter (esActivo e t) with
  | nil => rfl
  | cons a rest => rw [hf] at h; exact absurd h (by simp)

theorem registroActivo_some_mem (s : HistState) (e : Nat) (t : String) (r : Registro)
    (h : registroActivo s e t = some r) : r ∈ s.rows ∧ esActivo e t r = true := by
  unfold registroActivo at h
  cases hf : s.rows.filter (esActivo e t) with
  | nil => rw [hf] at h; exact absurd h (by simp)
  | cons a rest =>
      rw [hf] at h
      have ha : a = r := by simpa using h
      subst ha
      have : a ∈ s.rows.filter (esActivo e t) := by rw [hf]; exact List.mem_cons_self a rest
      exact ⟨(List.mem_filter.mp this).1, (List.mem_filter.mp this).2⟩

theorem filter_of_registroActivo_le_one (s : HistState) (e : Nat) (t : String) (r : Registro)
    (h : registroActivo s e t = some r) (hle : countOpen e t s ≤ 1) :
    s.rows.filter (esActivo e t) = [r] := by
  unfold registroActivo at h
  unfold countOpen at hle
  cases hf : s.rows.filter (esActivo e t) with
  | nil => rw [hf] at h; exact absurd h (by simp)
  | cons a rest =>
      rw [hf] at h hle
      have ha : a = r := by simpa using h
      subst ha
      cases rest with
      | nil => rfl
      | cons b rest2 => simp at hle

theorem pasoHistorial_skip (expId : Nat) (hoy : Int) (s : HistState) (x : String × DatosHist)
    (hb : x.2.nombre = "") : pasoHistorial expId hoy s x = s := by
  rw [pasoHistorial_eq, if_pos hb]

theorem pasoHistorial_none (expId : Nat) (hoy : Int) (s : HistState) (x : String × DatosHist)
    (hb : ¬x.2.nombre = "") (hra : registroActivo s expId x.1 = none) :
    pasoHistorial expId hoy s x
      = crearNuevoRegistroHistorial expId x.1 x.2.nombre x.2.usuario (x.2.fecha.getD hoy) s := by
  simp only [pasoHistorial_eq, if_neg hb, hra]

theorem pasoHistorial_some_dif (expId : Nat) (hoy : Int) (s : HistState)
    (x : String × DatosHist) (r : Registro) (hb : ¬x.2.nombre = "")
    (hra : registroActivo s expId x.1 = some r)
    (hdif : r.bandeja_nombre ≠ x.2.nombre ∨ r.usuario_asignado ≠ x.2.usuario) :
    pasoHistorial expId hoy s x
      = crearNuevoRegistroHistorial expId x.1 x.2.nombre x.2.usuario (x.2.fecha.getD hoy)
          (cerrarRegistro r.id (x.2.fecha.getD hoy)
            (max 0 (x.2.fecha.getD hoy - r.fecha_inicio)) s) := by
  simp only [pasoHistorial_eq, if_neg hb, hra]
  rw [if_pos hdif]

theorem pasoHistorial_some_same (expId : Nat) (hoy : Int) (s : HistState)
    (x : String × DatosHist) (r : Registro) (hb : ¬x.2.nombre = "")
    (hra : registroActivo s expId x.1 = some r)
    (hsame : ¬(r.bandeja_nombre ≠ x.2.nombre ∨ r.usuario_asignado ≠ x.2.usuario)) :
    pasoHistorial expId hoy s x = s := by
  simp only [pasoHistorial_eq, if_neg hb, hra]
  rw [if_neg hsame]

theorem pasoHistorial_count (expId : Nat) (hoy : Int) (s : HistState) (x : String × DatosHist)
    (hle : ∀ e t, countOpen e t s ≤ 1) :
    (∀ e t, countOpen e t (pasoHistorial expId hoy s x) ≤ 1)
    ∧ (x.2.nombre ≠ "" → countOpen expId x.1 (pasoHistorial expId hoy s x) = 1) := by
  by_cases hb : x.2.nombre = ""
  · rw [pasoHistorial_skip expId hoy s x hb]
    exact ⟨hle, fun hc => absurd hb hc⟩
  · cases hra : registroActivo s expId x.1 with
    | none =>
        rw [pasoHistorial_none expId hoy s x hb hra]
        have hzero : countOpen expId x.1 s = 0 := by
          unfold countOpen
          rw [registroActivo_none_filter s expId x.1 hra]
          rfl
        constructor
        · intro e t
          by_cases hpair : expId = e ∧ x.1 = t
          · obtain ⟨he, ht⟩ := hpair
            subst he; subst ht
            rw [countOpen_crear_same, hzero]
          · rw [countOpen_crear_other _ _ _ _ _ _ _ _ hpair]
            exact hle e t
        · intro _
          rw [countOpen_crear_same, hzero]
    | some r =>
        by_cases hdif : r.bandeja_nombre ≠ x.2.nombre ∨ r.usuario_asignado ≠ x.2.usuario
        · rw [pasoHistorial_some_dif expId hoy s x r hb hra hdif]
          have hfil : s.rows.filter (esActivo expId x.1) = [r] :=
            filter_of_registroActivo_le_one s expId x.1 r hra (hle expId x.1)
          have hzero : countOpen expId x.1
              (cerrarRegistro r.id (x.2.fecha.getD hoy)
                (max 0 (x.2.fecha.getD hoy - r.fecha_inicio)) s) = 0 :=
            countOpen_cerrar_head expId x.1 _ _ s r hfil
          constructor
          · intro e t
            by_cases hpair : expId = e ∧ x.1 = t
            · obtain ⟨he, ht⟩ := hpair
              subst he; subst ht
              rw [countOpen_crear_same, hzero]
            · rw [countOpen_crear_other _ _ _ _ _ _ _ _ hpair]
              exact le_trans (countOpen_cerrar_le _ _ _ _ _ _) (hle e t)
          · intro _
            rw [countOpen_crear_same, hzero]
        · rw [pasoHistorial_some_same expId hoy s x r hb hra hdif]
          constructor
          · exact hle
          · intro _
            have hfil : s.rows.filter (esActivo expId x.1) = [r] :=
              filter_of_registroActivo_le_one s expId x.1 r hra (hle expId x.1)
            unfold countOpen
            rw [hfil]
            rfl

theorem cerrar_id_eq (rid : Nat) (v d : Int) (x : Registro) :
    (if x.id == rid then { x with fecha_fin := some v, dias_en_bandeja := some d } else x).id
      = x.id := by
  split <;> rfl

theorem HistWF_cerrar (rid : Nat) (v d : Int) (s : HistState) (h : HistWF s) :
    HistWF (cerrarRegistro rid v d s) := by
  obtain ⟨h1, h2⟩ := h
  constructor
  · intro r hr
    obtain ⟨x, hx, rfl⟩ := List.mem_map.mp hr
    show (if x.id == rid then
        { x with fecha_fin := some v, dias_en_bandeja := some d } else x).id < s.nextId
    rw [cerrar_id_eq]
    exact h1 x hx
  · show ((s.rows.map (fun r : Registro => if r.id == rid then
        { r with fecha_fin := some v, dias_en_bandeja := some d } else r)).map
        (fun r => r.id)).Nodup
    rw [List.map_map]
    have heq : s.rows.map ((fun r => r.id) ∘ (fun r : Registro =>
        if r.id == rid then { r with fecha_fin := some v, dias_en_bandeja := some d } else r))
        = s.rows.map (fun r => r.id) :=
      List.map_congr_left (fun x _ => cerrar_id_eq rid v d x)
    rw [heq]
    exact h2

theorem HistWF_crear (expId : Nat) (tipo n u : String) (f : Int) (s : HistState)
    (h : HistWF s) : HistWF (crearNuevoRegistroHistorial expId tipo n u f s) := by
  obtain ⟨h1, h2⟩ := h
  constructor
  · intro r hr
    show r.id < s.nextId + 1
    rcases List.mem_append.mp hr with hmem | hmem
    · exact Nat.lt_succ_of_lt (h1 r hmem)
    · have : r = ⟨s.nextId, expId, tipo, n.take 200, u.take 200, f, none, none⟩ := by
        simpa using hmem
      rw [this]
      show s.nextId < s.nextId + 1
      omega
  · show (((s.rows ++ _).map (fun r => r.id))).Nodup
    rw [List.map_append, List.nodup_append]
    refine ⟨h2, List.nodup_singleton _, ?_⟩
    intro a ha hb
    have hb2 : a = s.nextId := by simpa using hb
    obtain ⟨x, hx, hxa⟩ := List.mem_map.mp ha
    have := h1 x hx
    omega

theorem HistWF_paso (expId : Nat) (hoy : Int) (s : HistState) (x : String × DatosHist)
    (h : HistWF s) : HistWF (pasoHistorial expId hoy s x) := by
  by_cases hb : x.2.nombre = ""
  · rw [pasoHistorial_skip _ _ _ _ hb]; exact h
  · cases hra : registroActivo s expId x.1 with
    | none =>
        rw [pasoHistorial_none _ _ _ _ hb hra]
        exact HistWF_crear _ _ _ _ _ _ h
    | some r =>
        by_cases hdif : r.bandeja_nombre ≠ x.2.nombre ∨ r.usuario_asignado ≠ x.2.usuario
        · rw [pasoHistorial_some_dif _ _ _ _ _ hb hra hdif]
          exact HistWF_crear _ _ _ _ _ _ (HistWF_cerrar _ _ _ _ h)
        · rw [pasoHistorial_some_same _ _ _ _ _ hb hra hdif]
          exact h

theorem filter_map_close_eq (l : List Registro) (rid : Nat) (v d : Int) (p : Registro → Bool)
    (hp : ∀ x ∈ l, x.id = rid → p x = false ∧
        p { x with fecha_fin := some v, dias_en_bandeja := some d } = false) :
    (l.map (fun r => if r.id == rid then
        { r with fecha_fin := some v, dias_en_bandeja := some d } else r)).filter p
      = l.filter p := by
  induction l with
  | nil => rfl
  | cons a rest ih =>
      have ih2 := ih (fun x hx h => hp x (List.mem_cons_of_mem _ hx) h)
      simp only [List.map_cons, List.filter_cons]
      by_cases ha : a.id = rid
      · obtain ⟨hp1, hp2⟩ := hp a (List.mem_cons_self a rest) ha
        have hfa : (if a.id == rid then
            { a with fecha_fin := some v, dias_en_bandeja := some d } else a)
            = { a with fecha_fin := some v, dias_en_bandeja := some d } :=
          if_pos (beq_iff_eq.mpr ha)
        rw [hfa, hp2, hp1]
        simp only [Bool.false_eq_true, if_false]
        exact ih2
      · have hfa : (if a.id == rid then
            { a with fecha_fin := some v, dias_en_bandeja := some d } else a) = a := by
          rw [if_neg]
          simpa using ha
        rw [hfa]
        cases hpa : p a
        · simp only [Bool.false_eq_true, if_false]
          exact ih2
        · simp only [if_true]
          rw [ih2]

theorem paso_filter_tipo (expId : Nat) (hoy : Int) (s : HistState) (x : String × DatosHist)
    (t : String) (hW : HistWF s) (hx : x.1 ≠ t) :
    (pasoHistorial expId hoy s x).rows.filter (fun r => r.bandeja_tipo == t)
      = s.rows.filter (fun r => r.bandeja_tipo == t) := by
  by_cases hb : x.2.nombre = ""
  · rw [pasoHistorial_skip _ _ _ _ hb]
  · cases hra : registroActivo s expId x.1 with
    | none =>
        rw [pasoHistorial_none _ _ _ _ hb hra]
        show ((s.rows ++ _).filter _) = _
        rw [List.filter_append]
        have : ([(⟨s.nextId, expId, x.1, x.2.nombre.take 200, x.2.usuario.take 200,
            x.2.fecha.getD hoy, none, none⟩ : Registro)].filter
            (fun r => r.bandeja_tipo == t)) = [] := by
          simp [hx]
        rw [this, List.append_nil]
    | some r =>
        obtain ⟨hrmem, hract⟩ := registroActivo_some_mem s expId x.1 r hra
        have hrtipo : r.bandeja_tipo = x.1 := ((esActivo_iff _ _ _).mp hract).2.1
        by_cases hdif : r.bandeja_nombre ≠ x.2.nombre ∨ r.usuario_asignado ≠ x.2.usuario
        · rw [pasoHistorial_some_dif _ _ _ _ _ hb hra hdif]
          show (((s.rows.map _) ++ _).filter _) = _
          rw [List.filter_append]
          have hnew : ([(⟨(cerrarRegistro r.id (x.2.fecha.getD hoy)
              (max 0 (x.2.fecha.getD hoy - r.fecha_inicio)) s).nextId, expId, x.1,
              x.2.nombre.take 200, x.2.usuario.take 200,
              x.2.fecha.getD hoy, none, none⟩ : Registro)].filter
              (fun r => r.bandeja_tipo == t)) = [] := by
            simp [hx]
          rw [hnew, List.append_nil]
          refine filter_map_close_eq _ _ _ _ _ ?_
          intro y hy hid
          have hyr : y = r := List.inj_on_of_nodup_map hW.2 hy hrmem hid
          subst hyr
          constructor
          · simp [hrtipo, hx]
          · simp [hrtipo, hx]
        · rw [pasoHistorial_some_same _ _ _ _ _ hb hra hdif]

theorem actualizar_filter_tipo (expId : Nat) (hoy : Int) (datos : List (String × DatosHist))
    (t : String) :
    ∀ (s : HistState), HistWF s → (∀ x ∈ datos, x.1 ≠ t) →
      (actualizarHistorialTrasSincronizacion expId datos hoy s).rows.filter
          (fun r => r.bandeja_tipo == t)
        = s.rows.filter (fun r => r.bandeja_tipo == t) := by
  induction datos with
  | nil => intro s _ _; rfl
  | cons x rest ih =>
      intro s hW hx
      have h2 := ih (pasoHistorial expId hoy s x) (HistWF_paso expId hoy s x hW)
        (fun y hy => hx y (List.mem_cons_of_mem _ hy))
      have h1 := paso_filter_tipo expId hoy s x t hW (hx x (List.mem_cons_self x rest))
      show (actualizarHistorialTrasSincronizacion expId rest hoy
          (pasoHistorial expId hoy s x)).rows.filter (fun r => r.bandeja_tipo == t)
        = s.rows.filter (fun r => r.bandeja_tipo == t)
      rw [h2, h1]

theorem actualizar_count_le (expId : Nat) (hoy : Int) (datos : List (String × DatosHist)) :
    ∀ (s : HistState), (∀ e t, countOpen e t s ≤ 1) →
      ∀ e t, countOpen e t (actualizarHistorialTrasSincronizacion expId datos hoy s) ≤ 1 := by
  induction datos with
  | nil => intro s hle; exact hle
  | cons x rest ih =>
      intro s hle
      exact ih (pasoHistorial expId hoy s x) (pasoHistorial_count expId hoy s x hle).1

/-- C2 counterexample: a case with an open "cpim" interval is synced
with a snapshot that places it only in "imlauer"; the claim says the
cpim interval must be closed (end date set), but after the update the
cpim interval is still open. -/
theorem claim_C2_counterexample :
    ∃ r ∈ (actualizarHistorialTrasSincronizacion 1
        [("imlauer", ⟨"Bandeja IMLAUER", "v", some 5⟩)] 7
        ⟨1, [⟨0, 1, "cpim", "Bandeja CPIM", "u", 0, none, none⟩]⟩).rows,
      r.bandeja_tipo = "cpim" ∧ r.fecha_fin = none := by
  decide

/-- C2 amended: the history update never touches queues absent from the
sync snapshot — all ledger rows of a queue not among the snapshot keys
(open intervals included) are left exactly as they were — and a
transition into a queue B with no open interval results in exactly one
open interval for B. -/
theorem claim_C2_amended :
    (∀ (expId : Nat) (hoy : Int) (datos : List (String × DatosHist)) (s : HistState)
        (t : String), HistWF s → (∀ x ∈ datos, x.1 ≠ t) →
      (actualizarHistorialTrasSincronizacion expId datos hoy s).rows.filter
          (fun r => r.bandeja_tipo == t)
        = s.rows.filter (fun r => r.bandeja_tipo == t))
    ∧ (∀ (expId : Nat) (hoy : Int) (tipoB : String) (d : DatosHist) (s : HistState),
      d.nombre ≠ "" → registroActivo s expId tipoB = none →
      countOpen expId tipoB
        (actualizarHistorialTrasSincronizacion expId [(tipoB, d)] hoy s) = 1) := by
  constructor
  · intro expId hoy datos s t hW hx
    exact actualizar_filter_tipo expId hoy datos t s hW hx
  · intro expId hoy tipoB d s hd hra
    have heq : actualizarHistorialTrasSincronizacion expId [(tipoB, d)] hoy s
        = pasoHistorial expId hoy s (tipoB, d) := rfl
    rw [heq, pasoHistorial_none expId hoy s (tipoB, d) hd hra]
    rw [countOpen_crear_same]
    have hzero : countOpen expId tipoB s = 0 := by
      unfold countOpen
      rw [registroActivo_none_filter s expId tipoB hra]
      rfl
    rw [hzero]

/-- C2 witness: the amended theorem applied to a concrete ledger with
an open cpim interval and an imlauer-only snapshot. -/
theorem claim_C2_witness :
    (actualizarHistorialTrasSincronizacion 1 [("imlauer", ⟨"BI", "v", some 5⟩)] 7
        ⟨1, [⟨0, 1, "cpim", "BC", "u", 0, none, none⟩]⟩).rows.filter
        (fun r => r.bandeja_tipo == "cpim")
      = (HistState.mk 1 [⟨0, 1, "cpim", "BC", "u", 0, none, none⟩]).rows.filter
        (fun r => r.bandeja_tipo == "cpim") :=
  claim_C2_amended.1 1 7 [("imlauer", ⟨"BI", "v", some 5⟩)]
    ⟨1, [⟨0, 1, "cpim", "BC", "u", 0, none, none⟩]⟩ "cpim" ⟨by decide, by decide⟩ (by decide)

/-- C3 counterexample: a detail refresh (same queue "cpim", same label,
new occupant) does not update the open interval in place — the code
closes the existing interval (row id 0 gets an end date) and creates a
second row. -/
theorem claim_C3_counterexample :
    ((actualizarHistorialTrasSincronizacion 1 [("cpim", ⟨"BC", "v", some 5⟩)] 7
        ⟨1, [⟨0, 1, "cpim", "BC", "u", 0, none, none⟩]⟩).rows.length = 2)
    ∧ ∃ r ∈ (actualizarHistorialTrasSincronizacion 1 [("cpim", ⟨"BC", "v", some 5⟩)] 7
        ⟨1, [⟨0, 1, "cpim", "BC", "u", 0, none, none⟩]⟩).rows,
      r.id = 0 ∧ r.fecha_fin = some 5 := by
  decide

set_option maxRecDepth 100000 in
/-- C3 amended: when the open interval's stored label or occupant
differ from the synced values, the update closes that interval (end =
snapshot date, duration clamped at zero) and appends one new open
interval carrying the new label and occupant — not an in-place edit. -/
theorem claim_C3_amended :
    ∀ (expId : Nat) (hoy : Int) (tipo : String) (d : DatosHist) (s : HistState) (r : Registro),
      HistWF s →
      registroActivo s expId tipo = some r →
      (r.bandeja_nombre ≠ d.nombre ∨ r.usuario_asignado ≠ d.usuario) →
      d.nombre ≠ "" →
      (∀ x ∈ (actualizarHistorialTrasSincronizacion expId [(tipo, d)] hoy s).rows,
          x.id = r.id →
          x.fecha_fin = some (d.fecha.getD hoy)
            ∧ x.dias_en_bandeja = some (max 0 (d.fecha.getD hoy - r.fecha_inicio)))
      ∧ (actualizarHistorialTrasSincronizacion expId [(tipo, d)] hoy s).rows.length
          = s.rows.length + 1
      ∧ actualizarHistorialTrasSincronizacion expId [(tipo, d)] hoy s
          = crearNuevoRegistroHistorial expId tipo d.nombre d.usuario (d.fecha.getD hoy)
              (cerrarRegistro r.id (d.fecha.getD hoy)
                (max 0 (d.fecha.getD hoy - r.fecha_inicio)) s) := by
  intro expId hoy tipo d s r hW hra hdif hd
  have heq : actualizarHistorialTrasSincronizacion expId [(tipo, d)] hoy s
      = pasoHistorial expId hoy s (tipo, d) := rfl
  rw [heq, pasoHistorial_some_dif expId hoy s (tipo, d) r hd hra hdif]
  obtain ⟨hrmem, _⟩ := registroActivo_some_mem s expId tipo r hra
  refine ⟨?_, ?_, ?_⟩
  · intro x hx hid
    rcases List.mem_append.mp hx with hm | hm
    · obtain ⟨y, hy, rfl⟩ := List.mem_map.mp hm
      rw [cerrar_id_eq] at hid
      have hyid : (y.id == r.id) = true := beq_iff_eq.mpr hid
      constructor
      · rw [if_pos hyid]
      · rw [if_pos hyid]
    · have hx2 : x = ⟨(cerrarRegistro r.id (d.fecha.getD hoy)
          (max 0 (d.fecha.getD hoy - r.fecha_inicio)) s).nextId, expId, tipo,
          d.nombre.take 200, d.usuario.take 200, d.fecha.getD hoy, none, none⟩ := by
        simpa using hm
      have hrid : r.id < s.nextId := hW.1 r hrmem
      rw [hx2] at hid
      have : s.nextId = r.id := hid
      omega
  · show ((s.rows.map _) ++ [_]).length = s.rows.length + 1
    simp
  · rfl

/-- C3 witness: the amended theorem at a concrete ledger whose open
cpim interval has occupant "u" while the snapshot carries "v". -/
theorem claim_C3_witness :
    (∀ x ∈ (actualizarHistorialTrasSincronizacion 1 [("cpim", ⟨"BC", "v", some 5⟩)] 7
        ⟨1, [⟨0, 1, "cpim", "BC", "u", 0, none, none⟩]⟩).rows,
        x.id = (Registro.mk 0 1 "cpim" "BC" "u" 0 none none).id →
        x.fecha_fin = some ((some (5 : Int)).getD 7)
          ∧ x.dias_en_bandeja = some (max 0 ((some (5 : Int)).getD 7
              - (Registro.mk 0 1 "cpim" "BC" "u" 0 none none).fecha_inicio)))
    ∧ (actualizarHistorialTrasSincronizacion 1 [("cpim", ⟨"BC", "v", some 5⟩)] 7
        ⟨1, [⟨0, 1, "cpim", "BC", "u", 0, none, none⟩]⟩).rows.length
        = (HistState.mk 1 [⟨0, 1, "cpim", "BC", "u", 0, none, none⟩]).rows.length + 1
    ∧ actualizarHistorialTrasSincronizacion 1 [("cpim", ⟨"BC", "v", some 5⟩)] 7
        ⟨1, [⟨0, 1, "cpim", "BC", "u", 0, none, none⟩]⟩
        = crearNuevoRegistroHistorial 1 "cpim" "BC" "v" ((some (5 : Int)).getD 7)
            (cerrarRegistro (Registro.mk 0 1 "cpim" "BC" "u" 0 none none).id
              ((some (5 : Int)).getD 7)
              (max 0 ((some (5 : Int)).getD 7
                - (Registro.mk 0 1 "cpim" "BC" "u" 0 none none).fecha_inicio))
              ⟨1, [⟨0, 1, "cpim", "BC", "u", 0, none, none⟩]⟩) :=
  claim_C3_amended 1 7 "cpim" ⟨"BC", "v", some 5⟩
    ⟨1, [⟨0, 1, "cpim", "BC", "u", 0, none, none⟩]⟩
    ⟨0, 1, "cpim", "BC", "u", 0, none, none⟩
    ⟨by decide, by decide⟩ (by decide) (by decide) (by decide)

/-- C4: the at-most-one-open-interval invariant per (case, queue) pair
is preserved by the history update, and applying the same
(queue, label, occupant, date) snapshot twice in a row leaves exactly
one open interval for that case and queue. -/
theorem claim_C4 :
    (∀ (expId : Nat) (hoy : Int) (datos : List (String × DatosHist)) (s : HistState),
      (∀ e t, countOpen e t s ≤ 1) →
      ∀ e t, countOpen e t (actualizarHistorialTrasSincronizacion expId datos hoy s) ≤ 1)
    ∧ (∀ (expId : Nat) (hoy : Int) (tipo : String) (d : DatosHist) (s : HistState),
      d.nombre ≠ "" → (∀ e t, countOpen e t s ≤ 1) →
      countOpen expId tipo
        (actualizarHistorialTrasSincronizacion expId [(tipo, d)] hoy
          (actualizarHistorialTrasSincronizacion expId [(tipo, d)] hoy s)) = 1) := by
  constructor
  · intro expId hoy datos s hle
    exact actualizar_count_le expId hoy datos s hle
  · intro expId hoy tipo d s hd hle
    have h1 : ∀ e t, countOpen e t
        (actualizarHistorialTrasSincronizacion expId [(tipo, d)] hoy s) ≤ 1 :=
      actualizar_count_le expId hoy [(tipo, d)] s hle
    have heq : ∀ (s' : HistState),
        actualizarHistorialTrasSincronizacion expId [(tipo, d)] hoy s'
          = pasoHistorial expId hoy s' (tipo, d) := fun s' => rfl
    rw [heq]
    exact (pasoHistorial_count expId hoy _ (tipo, d) h1).2 hd

/-- C4 witness: the theorem applied to a one-queue snapshot on the
empty ledger. -/
theorem claim_C4_witness :
    countOpen 1 "cpim"
      (actualizarHistorialTrasSincronizacion 1 [("cpim", ⟨"B", "u", some 3⟩)] 0
        (actualizarHistorialTrasSincronizacion 1 [("cpim", ⟨"B", "u", some 3⟩)] 0
          ⟨0, []⟩)) = 1 :=
  claim_C4.2 1 0 "cpim" ⟨"B", "u", some 3⟩ ⟨0, []⟩ (by decide)
    (fun e t => by simp [countOpen])

/-- C8 amended: the per-call bounds present in the code are a 50-row
cap in the filtered single-page search and a 100-page cap (with no
per-page row cap) in the paginated search. -/
theorem claim_C8_amended :
    (∀ fuente gops rows, (buscarGopsEnPaginaSimple fuente gops rows).2 ≤ 50)
    ∧ (∀ fuente gops pages, (buscarGopsEnPaginaMultiple fuente gops pages).2.2 ≤ 100) := by
  constructor
  · intro fuente gops rows
    refine le_trans (buscarSimpleGo_le fuente gops _ 0) ?_
    simp only [List.length_take]
    omega
  · intro fuente gops pages
    have := buscarMultiplePaginas_pages_le fuente 100 pages 1
      ((((gops.map pyStrip).filter (fun x => x ≠ "")).dedup))
    simpa [buscarGopsEnPaginaMultiple] using this

theorem incBandeja_actualizados (st : Stats) (tipo : String) :
    (incBandeja st tipo).expedientes_actualizados = st.expedientes_actualizados := by
  unfold incBandeja
  (repeat' split) <;> rfl

theorem incBandeja_errores (st : Stats) (tipo : String) :
    (incBandeja st tipo).errores = st.errores := by
  unfold incBandeja
  (repeat' split) <;> rfl

theorem incBandeja_no_encontrados (st : Stats) (tipo : String) :
    (incBandeja st tipo).expedientes_no_encontrados = st.expedientes_no_encontrados := by
  unfold incBandeja
  (repeat' split) <;> rfl

theorem foldl_incBandeja_campos (lista : List Datos) :
    ∀ st : Stats,
      ((lista.foldl (fun st datos =>
          incBandeja st (determinarBandejaPorUsuario datos.usuario_asignado datos.fuente))
            st).expedientes_actualizados = st.expedientes_actualizados)
      ∧ ((lista.foldl (fun st datos =>
          incBandeja st (determinarBandejaPorUsuario datos.usuario_asignado datos.fuente))
            st).errores = st.errores)
      ∧ ((lista.foldl (fun st datos =>
          incBandeja st (determinarBandejaPorUsuario datos.usuario_asignado datos.fuente))
            st).expedientes_no_encontrados = st.expedientes_no_encontrados) := by
  induction lista with
  | nil => intro st; exact ⟨rfl, rfl, rfl⟩
  | cons a rest ih =>
      intro st
      have h := ih (incBandeja st
        (determinarBandejaPorUsuario a.usuario_asignado a.fuente))
      refine ⟨?_, ?_, ?_⟩
      · rw [show (List.foldl _ st (a :: rest)) = List.foldl _ (incBandeja st _) rest from rfl,
          h.1, incBandeja_actualizados]
      · rw [show (List.foldl _ st (a :: rest)) = List.foldl _ (incBandeja st _) rest from rfl,
          h.2.1, incBandeja_errores]
      · rw [show (List.foldl _ st (a :: rest)) = List.foldl _ (incBandeja st _) rest from rfl,
          h.2.2, incBandeja_no_encontrados]

theorem cuentaNoEncontrado_append (es : List SyncError) (e : SyncError) :
    cuentaNoEncontrado (es ++ [e])
      = cuentaNoEncontrado es
        + (match e with | .noEncontradoEnBD _ => 1 | _ => 0) := by
  unfold cuentaNoEncontrado
  rw [List.filter_append, List.length_append]
  cases e <;> rfl

theorem cuentaNoDigital_append (es : List SyncError) (e : SyncError) :
    cuentaNoDigital (es ++ [e])
      = cuentaNoDigital es + (match e with | .noDigital _ _ => 1 | _ => 0) := by
  unfold cuentaNoDigital
  rw [List.filter_append, List.length_append]
  cases e <;> rfl

theorem pasoSyncStats_eq_none (db : String → Option (Nat × String)) (st : Stats)
    (entry : String × List Datos) (h : db entry.1 = none) :
    pasoSyncStats db st entry
      = { st with errores := st.errores ++ [SyncError.noEncontradoEnBD entry.1] } := by
  simp only [pasoSyncStats, h]

theorem pasoSyncStats_eq_nodig (db : String → Option (Nat × String)) (st : Stats)
    (entry : String × List Datos) (i : Nat) (fmt : String)
    (h : db entry.1 = some (i, fmt)) (hf : fmt ≠ "Digital") :
    pasoSyncStats db st entry
      = { st with errores := st.errores ++ [SyncError.noDigital entry.1 fmt] } := by
  simp only [pasoSyncStats, h]
  rw [if_pos hf]

theorem pasoSyncStats_eq_dig (db : String → Option (Nat × String)) (st : Stats)
    (entry : String × List Datos) (i : Nat) (fmt : String)
    (h : db entry.1 = some (i, fmt)) (hf : ¬fmt ≠ "Digital") :
    pasoSyncStats db st entry
      = { entry.2.foldl (fun st datos =>
            incBandeja st (determinarBandejaPorUsuario datos.usuario_asignado datos.fuente)) st
          with expedientes_actualizados :=
            (entry.2.foldl (fun st datos =>
              incBandeja st
                (determinarBandejaPorUsuario datos.usuario_asignado datos.fuente)) st
            ).expedientes_actualizados + 1 } := by
  simp only [pasoSyncStats, h]
  rw [if_neg hf]

theorem pasoSyncStats_effect (db : String → Option (Nat × String)) (st : Stats)
    (entry : String × List Datos) :
    (((pasoSyncStats db st entry).expedientes_actualizados : Int)
        + cuentaNoEncontrado (pasoSyncStats db st entry).errores
        + cuentaNoDigital (pasoSyncStats db st entry).errores
      = st.expedientes_actualizados + cuentaNoEncontrado st.errores
        + cuentaNoDigital st.errores + 1)
    ∧ (pasoSyncStats db st entry).expedientes_no_encontrados
      = st.expedientes_no_encontrados := by
  cases hdb : db entry.1 with
  | none =>
      rw [pasoSyncStats_eq_none db st entry hdb]
      constructor
      · show (st.expedientes_actualizados : Int)
            + cuentaNoEncontrado (st.errores ++ [SyncError.noEncontradoEnBD entry.1])
            + cuentaNoDigital (st.errores ++ [SyncError.noEncontradoEnBD entry.1]) = _
        rw [cuentaNoEncontrado_append, cuentaNoDigital_append]
        push_cast
        ring
      · rfl
  | some pr =>
      obtain ⟨i, fmt⟩ := pr
      by_cases hf : fmt ≠ "Digital"
      · rw [pasoSyncStats_eq_nodig db st entry i fmt hdb hf]
        constructor
        · show (st.expedientes_actualizados : Int)
              + cuentaNoEncontrado (st.errores ++ [SyncError.noDigital entry.1 fmt])
              + cuentaNoDigital (st.errores ++ [SyncError.noDigital entry.1 fmt]) = _
          rw [cuentaNoEncontrado_append, cuentaNoDigital_append]
          push_cast
          ring
        · rfl
      · rw [pasoSyncStats_eq_dig db st entry i fmt hdb hf]
        have h := foldl_incBandeja_campos entry.2 st
        constructor
        · show ((entry.2.foldl _ st).expedientes_actualizados + 1 : Int)
              + cuentaNoEncontrado (entry.2.foldl _ st).errores
              + cuentaNoDigital (entry.2.foldl _ st).errores = _
          rw [h.1, h.2.1]
          ring
        · show (entry.2.foldl _ st).expedientes_no_encontrados = _
          rw [h.2.2]

theorem foldl_pasoSyncStats (db : String → Option (Nat × String))
    (entries : List (String × List Datos)) :
    ∀ st : Stats,
      (((entries.foldl (pasoSyncStats db) st).expedientes_actualizados : Int)
        + cuentaNoEncontrado (entries.foldl (pasoSyncStats db) st).errores
        + cuentaNoDigital (entries.foldl (pasoSyncStats db) st).errores
      = st.expedientes_actualizados + cuentaNoEncontrado st.errores
        + cuentaNoDigital st.errores + entries.length)
    ∧ (entries.foldl (pasoSyncStats db) st).expedientes_no_encontrados
      = st.expedientes_no_encontrados := by
  induction entries with
  | nil =>
      intro st
      constructor
      · simp
      · rfl
  | cons a rest ih =>
      intro st
      have h1 := pasoSyncStats_effect db st a
      have h2 := ih (pasoSyncStats db st a)
      constructor
      · rw [show rest.foldl (pasoSyncStats db) (pasoSyncStats db st a)
            = (a :: rest).foldl (pasoSyncStats db) st from rfl] at h2
        rw [h2.1, h1.1]
        push_cast [List.length_cons]
        ring
      · rw [show rest.foldl (pasoSyncStats db) (pasoSyncStats db st a)
            = (a :: rest).foldl (pasoSyncStats db) st from rfl] at h2
        rw [h2.2, h1.2]

/-- C5 counterexample: a submitted tracking number the scraper never
finds is counted in `expedientes_no_encontrados`, not in `errores`, so
`expedientes_actualizados` plus the "not found" (and non-digital)
failures in `errores` is 0 while one tracking number was submitted. -/
theorem claim_C5_counterexample :
    ¬(((syncStats (fun _ => none) ["1"] []).expedientes_actualizados : Int)
        + cuentaNoEncontrado (syncStats (fun _ => none) ["1"] []).errores
        + cuentaNoDigital (syncStats (fun _ => none) ["1"] []).errores
      = ((["1"] : List String).length : Int)) := by
  decide

/-- C5 amended: the run-statistics identity needs the scraper-miss
count — updated cases, plus "not found as digital" failures, plus
non-digital skips recorded in `errores`, plus
`expedientes_no_encontrados` (tracking numbers the scraper never
produced), equals the total distinct tracking numbers submitted. -/
theorem claim_C5_amended :
    ∀ (db : String → Option (Nat × String)) (gop_list : List String)
      (resultados : List (String × Datos)),
      ((syncStats db gop_list resultados).expedientes_actualizados : Int)
        + cuentaNoEncontrado (syncStats db gop_list resultados).errores
        + cuentaNoDigital (syncStats db gop_list resultados).errores
        + (syncStats db gop_list resultados).expedientes_no_encontrados
      = gop_list.length := by
  intro db gop_list res
  unfold syncStats
  by_cases hg : gop_list = []
  · rw [if_pos hg]
    subst hg
    rfl
  · rw [if_neg hg]
    have h := foldl_pasoSyncStats db (gopAgrupados res)
      ⟨(gopAgrupados res).length, 0,
        (gop_list.length : Int) - (gopAgrupados res).length, 0, 0, 0, 0, []⟩
    rw [h.1, h.2]
    show (0 : Int) + cuentaNoEncontrado ([] : List SyncError)
        + cuentaNoDigital ([] : List SyncError) + (gopAgrupados res).length
        + ((gop_list.length : Int) - (gopAgrupados res).length) = gop_list.length
    show (0 : Int) + 0 + 0 + (gopAgrupados res).length
        + ((gop_list.length : Int) - (gopAgrupados res).length) = gop_list.length
    ring

theorem determinarBandeja_todos (u : String) :
    determinarBandejaPorUsuario u "Todos los Trámites" = "profesional" := by
  unfold determinarBandejaPorUsuario
  simp

theorem aplicarRegistro_todos_usuario (row : ExpRow) (a : Datos)
    (ha : a.fuente = "Todos los Trámites") :
    (aplicarRegistro row a).bandeja_profesional.usuario = some "Profesional" := by
  unfold aplicarRegistro
  rw [ha, determinarBandeja_todos]
  unfold setBandeja
  rw [if_neg (by decide), if_neg (by decide), if_neg (by decide), if_pos rfl]
  show some (usuarioParaGuardar a) = some "Profesional"
  unfold usuarioParaGuardar
  rw [if_pos ha]

theorem foldl_aplicarRegistro_todos (lista : List Datos) :
    ∀ row : ExpRow, lista ≠ [] → (∀ d ∈ lista, d.fuente = "Todos los Trámites") →
      (lista.foldl aplicarRegistro row).bandeja_profesional.usuario = some "Profesional" := by
  induction lista with
  | nil => intro row h; exact absurd rfl h
  | cons a rest ih =>
      intro row _ hall
      by_cases hrest : rest = []
      · subst hrest
        show (aplicarRegistro row a).bandeja_profesional.usuario = some "Profesional"
        exact aplicarRegistro_todos_usuario row a (hall a (List.mem_cons_self a []))
      · exact ih (aplicarRegistro row a) hrest
          (fun d hd => hall d (List.mem_cons_of_mem _ hd))

/-- C10: for every scraped record whose provenance is "Todos los
Trámites" the apply step discards the scraped assigned-user text and
stores the literal "Profesional" — per record, in the value written to
the per-queue occupant column, and, when the group's records all come
from that view (as every group a run produces does), the applied row
ends with "Profesional" in both the profesional-queue occupant column
and the legacy `gop_usuario_asignado` column. -/
theorem claim_C10 :
    (∀ datos : Datos, datos.fuente = "Todos los Trámites" →
        usuarioParaGuardar datos = "Profesional" ∧ usuarioGopOriginal datos = "Profesional")
    ∧ (∀ (row : ExpRow) (lista : List Datos), lista ≠ [] →
        (∀ d ∈ lista, d.fuente = "Todos los Trámites") →
        (aplicarCaso row lista).bandeja_profesional.usuario = some "Profesional"
        ∧ (aplicarCaso row lista).gop_usuario_asignado = some "Profesional") := by
  constructor
  · intro datos h
    constructor
    · unfold usuarioParaGuardar
      rw [if_pos h]
    · unfold usuarioGopOriginal
      rw [if_pos h]
  · intro row lista hne hall
    cases lista with
    | nil => exact absurd rfl hne
    | cons p rest =>
        constructor
        · show (actualizarCamposGop ((p :: rest).foldl aplicarRegistro
              (limpiarCamposBandeja row)) p).bandeja_profesional.usuario = some "Profesional"
          rw [show (actualizarCamposGop ((p :: rest).foldl aplicarRegistro
              (limpiarCamposBandeja row)) p).bandeja_profesional
              = ((p :: rest).foldl aplicarRegistro
                (limpiarCamposBandeja row)).bandeja_profesional from rfl]
          exact foldl_aplicarRegistro_todos (p :: rest) (limpiarCamposBandeja row)
            (by simp) hall
        · show some (usuarioGopOriginal p) = some "Profesional"
          have hp : p.fuente = "Todos los Trámites" := hall p (List.mem_cons_self p rest)
          unfold usuarioGopOriginal
          rw [if_pos hp]

/-- C10 witness: a one-record group from "Todos los Trámites" with a
scraped username, applied to a blank row. -/
theorem claim_C10_witness :
    (aplicarCaso
        ⟨⟨none, none, none⟩, ⟨none, none, none⟩, ⟨none, none, none⟩, ⟨none, none, none⟩,
          none, none, none, none, none⟩
        [⟨"1", "e", "s", "p", "n", "BX", "", "", "Carlos", "Todos los Trámites"⟩]
      ).bandeja_profesional.usuario = some "Profesional"
    ∧ (aplicarCaso
        ⟨⟨none, none, none⟩, ⟨none, none, none⟩, ⟨none, none, none⟩, ⟨none, none, none⟩,
          none, none, none, none, none⟩
        [⟨"1", "e", "s", "p", "n", "BX", "", "", "Carlos", "Todos los Trámites"⟩]
      ).gop_usuario_asignado = some "Profesional" :=
  claim_C10.2
    ⟨⟨none, none, none⟩, ⟨none, none, none⟩, ⟨none, none, none⟩, ⟨none, none, none⟩,
      none, none, none, none, none⟩
    [⟨"1", "e", "s", "p", "n", "BX", "", "", "Carlos", "Todos los Trámites"⟩]
    (by decide) (by decide)

end GopSync
